import Mathlib

/-!
Verification of the client-side RSVP / countdown / map code of the
wedding-invitation site (src/js/rsvp.js, src/js/main.js).

JavaScript strings are modelled as lists of UTF-16 code units (`List Nat`),
JavaScript numbers holding integers as `Nat`/`Int`, the browser's
local storage as a record of typed cells, and thrown exceptions as
`Except` results threaded next to the mutated store.
-/

namespace Wedding

/-- A JavaScript string, as its sequence of UTF-16 code units. -/
abbrev JStr := List Nat

/-- Code units of a Lean string literal, for concrete examples. -/
def codes (s : String) : JStr := s.data.map Char.toNat

/-- Whitespace code units (the ASCII characters that both the `\s` class of
the validation regexes and `String.prototype.trim` treat as whitespace). -/
def isWsCode (c : Nat) : Bool :=
  decide (c = 32 ∨ c = 9 ∨ c = 10 ∨ c = 13 ∨ c = 11 ∨ c = 12)

/-- Model of `String.prototype.toLowerCase` on one code unit (ASCII range):
`A`-`Z` map to `a`-`z`, everything else is unchanged. -/
def lowerCode (c : Nat) : Nat := if 65 ≤ c ∧ c ≤ 90 then c + 32 else c

/-- Model of `String.prototype.toLowerCase`. -/
def jsToLower (s : JStr) : JStr := s.map lowerCode

/-- Model of `String.prototype.trim`: strip leading and trailing whitespace. -/
def jsTrim (s : JStr) : JStr :=
  ((s.dropWhile isWsCode).reverse.dropWhile isWsCode).reverse

/-- A code unit allowed by the `[^\s@]` class of the email regex. -/
def emailChar (c : Nat) : Bool := !isWsCode c && decide (c ≠ 64)

/-- Model of the email regex `/^[^\s@]+@[^\s@]+\.[^\s@]+$/` of
`validationRules.email.pattern` (rsvp.js line 43).  The string must decompose
as `A ++ "@" ++ B ++ "." ++ C` with `A`, `B`, `C` nonempty runs of `[^\s@]`
characters; as `A`, `B`, `C` all exclude `@`, the string holds exactly one
`@` (so `A` is the prefix before it), and since `B` and `C` may themselves
contain `.` (code 46), the split dot can be any interior dot of the part
after the `@`. -/
def emailMatch (s : JStr) : Bool :=
  let A := s.takeWhile (fun c => c != 64)
  let rest := (s.dropWhile (fun c => c != 64)).drop 1
  s.any (fun c => c == 64) && !A.isEmpty && A.all emailChar &&
    !rest.isEmpty && rest.all emailChar &&
    ((rest.drop 1).dropLast.any (fun c => c == 46))

/-- A code unit allowed by the name regex class
`[a-zA-Z\sÀ-ſĀ-ɏḀ-ỿ]` (rsvp.js line 39). -/
def nameChar (c : Nat) : Bool :=
  decide ((97 ≤ c ∧ c ≤ 122) ∨ (65 ≤ c ∧ c ≤ 90)) || isWsCode c ||
    decide ((192 ≤ c ∧ c ≤ 383) ∨ (256 ≤ c ∧ c ≤ 591) ∨ (7680 ≤ c ∧ c ≤ 7935))

/-- Longest leading run of decimal digits, as a number (`none` when there is
no leading digit, in which case `parseInt` yields `NaN`). -/
def digitsVal (s : JStr) : Option Nat :=
  let ds := s.takeWhile (fun c => decide (48 ≤ c ∧ c ≤ 57))
  if ds.isEmpty then none
  else some (ds.foldl (fun a c => a * 10 + (c - 48)) 0)

/-- Model of the `parseInt` builtin on decimal input: skip leading
whitespace, read an optional sign, then the longest leading digit run;
no digits gives `NaN`, modelled as `none`.  (The hexadecimal `0x` prefix
form and float rounding on astronomically long digit runs are outside the
decimal select values this page feeds it.) -/
def parseIntJS (s : JStr) : Option Int :=
  match s.dropWhile isWsCode with
  | 45 :: rest => (digitsVal rest).map (fun n => -(n : Int))
  | 43 :: rest => (digitsVal rest).map (fun n => (n : Int))
  | t => (digitsVal t).map (fun n => (n : Int))

/-- The RSVP record built by `collectFormData` (rsvp.js lines 358-380):
exactly the fields `{ id, name, email, attendance, guestCount, message,
timestamp, submittedAt }`.  `id`, `timestamp` and `submittedAt` are three
renderings of the submission time (`Date.now().toString()`,
`toISOString()`, `toLocaleString`), modelled by the underlying millisecond
time; `guestCount` is the `parseInt` result, with `none` standing for `NaN`
or for a field missing from an externally stored record. -/
structure RSVPRecord where
  id : Int
  name : JStr
  email : JStr
  attendance : Bool
  guestCount : Option Int
  message : JStr
  timestamp : Int
  submittedAt : Int
deriving DecidableEq

/-- A JSON value other than an array, as far as this model needs one. -/
inductive JsPrim where
  | jnull
  | jbool (b : Bool)
  | jnum (n : Int)
  | jstr (s : JStr)
deriving DecidableEq

/-- Content of the `"wedding_rsvp_data"` local-storage cell, classified by
what `JSON.parse` does to it: the key may be absent (`getItem` returns
`null`; an empty stored string is falsy and acts the same), hold a string
`JSON.parse` throws on, hold valid JSON that is not an array, or hold a
serialized record list. -/
inductive RSVPCell where
  | absent
  | malformed
  | nonArray (p : JsPrim)
  | records (l : List RSVPRecord)
deriving DecidableEq

/-- A parsed JavaScript value returned by `getRSVPData`. -/
inductive JsVal where
  | arr (l : List RSVPRecord)
  | prim (p : JsPrim)
deriving DecidableEq

/-- Whether a parsed value is an array. -/
def JsVal.isArray : JsVal → Bool
  | .arr _ => true
  | .prim _ => false

/-- Model of `getRSVPData` (rsvp.js lines 584-592):
`data ? JSON.parse(data) : []` inside a `try`, whose `catch` returns `[]`.
An absent (or empty, hence falsy) cell gives `[]`; a cell `JSON.parse`
throws on is caught and gives `[]`; any other cell yields its parsed value
unchecked. -/
def getRSVPData : RSVPCell → JsVal
  | .absent => .arr []
  | .malformed => .arr []
  | .nonArray p => .prim p
  | .records l => .arr l

/-- The aggregate stored under `"wedding_rsvp_stats"` (rsvp.js 597-617). -/
structure RSVPStats where
  totalResponses : Nat
  attendingCount : Nat
  notAttendingCount : Nat
  totalGuests : Int
  lastUpdated : Int
deriving DecidableEq

/-- JavaScript `entry.guestCount || 0`: `undefined`/missing, `NaN` (both
modelled by `none`) and `0` are falsy and give `0`; any other number is
returned itself. -/
def jsOr0 : Option Int → Int
  | none => 0
  | some v => if v == 0 then 0 else v

/-- The statistics object computed by `updateRSVPStatistics` from a record
list (rsvp.js lines 599-610); `lastUpdated` renders the current time. -/
def computeStats (l : List RSVPRecord) (now : Int) : RSVPStats where
  totalResponses := l.length
  attendingCount := (l.filter (fun e => e.attendance)).length
  notAttendingCount := (l.filter (fun e => !e.attendance)).length
  totalGuests := l.foldl (fun sum e => sum + jsOr0 e.guestCount) 0
  lastUpdated := now

/-- The draft object written by `autoSaveFormData` (rsvp.js lines 477-492):
raw field values plus the `savedAt` timestamp. -/
structure DraftData where
  name : JStr
  email : JStr
  attendance : Option JStr
  guestCount : JStr
  message : JStr
  savedAt : Int
deriving DecidableEq

/-- Content of the `"rsvp_draft"` cell: absent, a string `JSON.parse`
throws on, or a parsed draft. -/
inductive DraftCell where
  | absent
  | malformed
  | draft (d : DraftData)
deriving DecidableEq

/-- The three local-storage cells the RSVP controller touches. -/
structure LocalStorage where
  rsvpData : RSVPCell
  rsvpStats : Option RSVPStats
  draft : DraftCell
deriving DecidableEq

/-- Storage environment for one save: `quotaHit` models the storage-full
condition (when set, the `setItem` of the grown record list throws
`QuotaExceededError`; when clear, writes succeed); `trimWriteThrows` is
whether the smaller cleanup write inside `handleStorageQuotaExceeded`
still throws. -/
structure StorageEnv where
  quotaHit : Bool
  trimWriteThrows : Bool
deriving DecidableEq

/-- Equality of modelled call results (normal value or thrown error) is
decidable, so concrete runs can be settled by `decide`. -/
instance {ε α : Type} [DecidableEq ε] [DecidableEq α] :
    DecidableEq (Except ε α) := fun x y =>
  match x, y with
  | .ok a, .ok b =>
      if h : a = b then .isTrue (by rw [h])
      else .isFalse (by intro hc; cases hc; exact h rfl)
  | .error a, .error b =>
      if h : a = b then .isTrue (by rw [h])
      else .isFalse (by intro hc; cases hc; exact h rfl)
  | .ok _, .error _ => .isFalse (by intro hc; cases hc)
  | .error _, .ok _ => .isFalse (by intro hc; cases hc)

/-- The current values of the form's inputs: `#rsvp-name`, `#rsvp-email`,
the `attendance` radio group (`getSelectedRadioValue` returns the checked
radio's value or `null`), the `#rsvp-guests` select and `#rsvp-message`. -/
structure FormState where
  nameValue : JStr
  emailValue : JStr
  attendanceSel : Option JStr
  guestCountValue : JStr
  messageValue : JStr
deriving DecidableEq

/-- The value of the attendance radio the controller compares against. -/
def yesValue : JStr := codes "yes"

/-- Modelled from the spec: the attendance radio inputs live in page markup
that is not under src/; the controller compares the selected value against
`"yes"` and the spec models `attendance` as the boolean yes/no choice, so
the radio values present in the document are `"yes"` and `"no"`. -/
def attendanceRadioValues : List JStr := [codes "yes", codes "no"]

/-- Modelled from the spec: the guest-count `<select>` markup is not under
src/; the spec gives `guestCount: int`, so its option values are strings
`parseInt` turns into integers. -/
@[reducible] def guestSelectValue (v : JStr) : Prop :=
  (parseIntJS v).isSome = true

/-- Outcome of validating one field: either it passes or the given error
message is put in the field's error container
(`updateFieldValidationUI`). -/
inductive FieldCheck where
  | pass
  | err (msg : String)
deriving DecidableEq

/-- Whether a field check passed. -/
def FieldCheck.ok : FieldCheck → Bool
  | .pass => true
  | .err _ => false

/-- Model of `isEmailAlreadyRegistered` (rsvp.js lines 659-664): some stored
entry's lowercased email equals the lowercased candidate.  When the stored
cell holds valid non-array JSON, `existingData.some` is not a function and
the call throws a `TypeError`, reported as `Except.error`. -/
def isEmailAlreadyRegistered (st : LocalStorage) (email : JStr) :
    Except String Bool :=
  match getRSVPData st.rsvpData with
  | .prim _ => .error "TypeError: existingData.some is not a function"
  | .arr l => .ok (l.any fun entry => jsToLower entry.email == jsToLower email)

/-- Model of `validateField("name")` (rsvp.js lines 134-210, rules at 34-40):
trim, then required / minLength 2 / maxLength 100 / pattern, first failure
winning.  Only the returned validity and displayed message are modelled. -/
def validateNameField (raw : JStr) : FieldCheck :=
  let value := jsTrim raw
  if value.isEmpty then .err "Nama lengkap wajib diisi"
  else if value.length < 2 then .err "Nama lengkap minimal 2 karakter"
  else if value.length > 100 then .err "Nama lengkap maksimal 100 karakter"
  else if !value.all nameChar then
    .err "Nama hanya boleh mengandung huruf dan spasi"
  else .pass

/-- Model of `validateField("email")`: trim, required, pattern, then the
duplicate check against the stored records (which can throw when the
stored cell is valid non-array JSON). -/
def validateEmailField (st : LocalStorage) (raw : JStr) :
    Except String FieldCheck :=
  let value := jsTrim raw
  if value.isEmpty then .ok (.err "Email wajib diisi")
  else if !emailMatch value then .ok (.err "Format email tidak valid")
  else
    match isEmailAlreadyRegistered st value with
    | .error e => .error e
    | .ok true =>
        .ok (.err
          "Email ini sudah terdaftar. Gunakan email lain atau hubungi penyelenggara.")
    | .ok false => .ok .pass

/-- Model of `validateField("attendance")`: invalid when no radio is checked
(`getSelectedRadioValue` returned `null`, or a falsy empty value). -/
def validateAttendanceField (sel : Option JStr) : FieldCheck :=
  match sel with
  | none => .err "Mohon pilih konfirmasi kehadiran Anda"
  | some v =>
      if v.isEmpty then .err "Mohon pilih konfirmasi kehadiran Anda" else .pass

/-- Model of `validateForm` (rsvp.js lines 290-311): validates the three
rule-bearing fields (`name`, `email`, `attendance`) and ANDs the results.
The extra `validateField("guests")` call finds no `fields["guests"]` entry
and returns `true` unconditionally (line 139), so it never affects the
outcome.  A thrown duplicate-check `TypeError` propagates. -/
def validateForm (st : LocalStorage) (form : FormState) : Except String Bool :=
  match validateEmailField st form.emailValue with
  | .error e => .error e
  | .ok emailCheck =>
      .ok ((validateNameField form.nameValue).ok && emailCheck.ok &&
        (validateAttendanceField form.attendanceSel).ok)

/-- Model of `collectFormData` (rsvp.js lines 358-380). -/
def collectFormData (form : FormState) (now : Int) : RSVPRecord where
  id := now
  name := jsTrim form.nameValue
  email := jsTrim form.emailValue
  attendance := form.attendanceSel == some yesValue
  guestCount :=
    if form.attendanceSel == some yesValue then parseIntJS form.guestCountValue
    else some 0
  message := jsTrim form.messageValue
  timestamp := now
  submittedAt := now

/-- Model of `updateRSVPStatistics` (rsvp.js lines 597-617): writes the
recomputed aggregate under `"wedding_rsvp_stats"`.  Its own `try`/`catch`
swallows write errors; in the storage environment of this model the write
is only reached when the quota condition is clear, so it succeeds. -/
def updateRSVPStatistics (l : List RSVPRecord) (now : Int)
    (st : LocalStorage) : LocalStorage :=
  { st with rsvpStats := some (computeStats l now) }

/-- The message `handleStorageQuotaExceeded` ends up throwing. -/
def quotaFinalMsg : String :=
  "Penyimpanan penuh. Silakan hubungi penyelenggara untuk konfirmasi manual."

/-- Model of `handleStorageQuotaExceeded` (rsvp.js lines 622-652): removes
the draft, and when the stored list holds at least 100 entries rewrites it
to `slice(-99)`, the most recent 99.  The `throw new Error(...)` closing its
own `try` block is always caught by its own `catch`, which throws the final
message, so the call always throws; if the cleanup `setItem` itself throws,
the `catch` is reached before the rewrite lands.  A non-array stored value
has no `.length`, and `undefined >= 100` is false, so it is not rewritten. -/
def handleStorageQuotaExceeded (st : LocalStorage) (env : StorageEnv) :
    LocalStorage × String :=
  let st1 := { st with draft := DraftCell.absent }
  let st2 :=
    match getRSVPData st1.rsvpData with
    | .arr l =>
        if 100 ≤ l.length ∧ env.trimWriteThrows = false then
          { st1 with rsvpData := .records (l.drop (l.length - 99)) }
        else st1
    | .prim _ => st1
  (st2, quotaFinalMsg)

/-- Model of `saveRSVPData` (rsvp.js lines 550-578): read the stored list,
push the new record, write it back, then update the statistics.  A
`QuotaExceededError` from the write routes to `handleStorageQuotaExceeded`
(which always throws); any other error — such as the `TypeError` from
pushing onto a non-array parse result — is re-thrown.  Returns the mutated
store next to the normal or thrown outcome. -/
def saveRSVPData (st : LocalStorage) (r : RSVPRecord) (now : Int)
    (env : StorageEnv) : LocalStorage × Except String Unit :=
  match getRSVPData st.rsvpData with
  | .prim _ => (st, .error "TypeError: existingData.push is not a function")
  | .arr l =>
      if env.quotaHit then
        let res := handleStorageQuotaExceeded st env
        (res.1, .error res.2)
      else
        let newList := l ++ [r]
        let st1 := { st with rsvpData := RSVPCell.records newList }
        (updateRSVPStatistics newList now st1, .ok ())

/-- What the user sees after `handleSubmit` returns normally. -/
inductive SubmitOutcome where
  | validationFailed (status : String)
  | success
  | submitErrorShown (status : String)
deriving DecidableEq

/-- The status message shown when validation fails. -/
def formFixMsg : String := "Mohon perbaiki kesalahan pada form"

/-- The status message `handleSubmit`'s own `catch` shows. -/
def submitErrMsg : String :=
  "Terjadi kesalahan saat mengirim konfirmasi. Silakan coba lagi."

/-- Model of `handleSubmit` (rsvp.js lines 316-353): validate (a thrown
duplicate-check `TypeError` escapes, since validation runs before the
`try` block), then collect the record, save it, and on success show the
success panel and clear the draft; an error thrown by the save is caught
and surfaced as the generic form-status message.  The result is the
mutated store and the displayed outcome, or the escaped exception. -/
def handleSubmit (st : LocalStorage) (form : FormState) (now : Int)
    (env : StorageEnv) : Except String (LocalStorage × SubmitOutcome) :=
  match validateForm st form with
  | .error e => .error e
  | .ok false => .ok (st, .validationFailed formFixMsg)
  | .ok true =>
      let fd := collectFormData form now
      match saveRSVPData st fd now env with
      | (st1, .ok ()) => .ok ({ st1 with draft := DraftCell.absent }, .success)
      | (st1, .error _) => .ok (st1, .submitErrorShown submitErrMsg)

/-- 24 hours in milliseconds (rsvp.js line 505). -/
def dayInMs : Int := 24 * 60 * 60 * 1000

/-- Model of `toggleGuestCountVisibility` (rsvp.js lines 273-284): when the
selected attendance value is not `"yes"` (including none selected) the
guest-count select is reset to its default `"1"`; when it is `"yes"` only
presentation attributes change. -/
def toggleGuestCountVisibility (form : FormState) : FormState :=
  if form.attendanceSel = some yesValue then form
  else { form with guestCountValue := codes "1" }

/-- Model of the field-restoration half of `loadSavedData` (rsvp.js lines
511-526): each truthy draft value overwrites the matching field (an empty
string is falsy and restores nothing); a truthy attendance value checks the
matching radio — when such a radio exists in the document — and runs
`toggleGuestCountVisibility`. -/
def applyDraft (d : DraftData) (form : FormState) : FormState :=
  let f1 := if d.name.isEmpty then form else { form with nameValue := d.name }
  let f2 := if d.email.isEmpty then f1 else { f1 with emailValue := d.email }
  let f3 :=
    if d.message.isEmpty then f2 else { f2 with messageValue := d.message }
  let f4 :=
    if d.guestCount.isEmpty then f3
    else { f3 with guestCountValue := d.guestCount }
  match d.attendance with
  | none => f4
  | some v =>
      if v.isEmpty then f4
      else if v ∈ attendanceRadioValues then
        toggleGuestCountVisibility { f4 with attendanceSel := some v }
      else f4

/-- Model of `loadSavedData` (rsvp.js lines 497-534): an absent draft does
nothing; a draft `JSON.parse` throws on is caught, logged and removed; a
parsed draft older than 24 hours is removed without touching the form;
otherwise the draft's values are restored.  Returns the store and the form
afterwards. -/
def loadSavedData (st : LocalStorage) (form : FormState) (now : Int) :
    LocalStorage × FormState :=
  match st.draft with
  | .absent => (st, form)
  | .malformed => ({ st with draft := DraftCell.absent }, form)
  | .draft d =>
      if now - d.savedAt > dayInMs then
        ({ st with draft := DraftCell.absent }, form)
      else (st, applyDraft d form)

/-- The `{ days, hours, minutes, seconds }` object of the countdown. -/
structure TimeUnits where
  days : Nat
  hours : Nat
  minutes : Nat
  seconds : Nat
deriving DecidableEq

/-- Model of `CountdownTimer.calculateTimeUnits` (main.js lines 390-401),
with the JavaScript numbers carrying exact integer millisecond values (they
stay far below 2^53, where `Math.floor` of the quotients is exact). -/
def calculateTimeUnits (timeDifference : Nat) : TimeUnits where
  days := timeDifference / (1000 * 60 * 60 * 24)
  hours := timeDifference % (1000 * 60 * 60 * 24) / (1000 * 60 * 60)
  minutes := timeDifference % (1000 * 60 * 60) / (1000 * 60)
  seconds := timeDifference % (1000 * 60) / 1000

noncomputable section

/-- Model of `deg2rad` (main.js lines 855-857). -/
def deg2rad (deg : ℝ) : ℝ := deg * (Real.pi / 180)

/-- Model of the `Math.atan2` builtin, piecewise in terms of `arctan` as in
the ECMAScript specification (the signed-zero distinctions collapse, since
`ℝ` has a single zero; this code only ever calls it on non-negative square
roots). -/
def atan2 (y x : ℝ) : ℝ :=
  if 0 < x then Real.arctan (y / x)
  else if x < 0 ∧ 0 ≤ y then Real.arctan (y / x) + Real.pi
  else if x < 0 ∧ y < 0 then Real.arctan (y / x) - Real.pi
  else if x = 0 ∧ 0 < y then Real.pi / 2
  else if x = 0 ∧ y < 0 then -(Real.pi / 2)
  else 0

/-- Model of `LocationMapController.calculateDistance` (main.js lines
835-848), over real numbers. -/
def calculateDistance (lat1 lon1 lat2 lon2 : ℝ) : ℝ :=
  let R : ℝ := 6371
  let dLat := deg2rad (lat2 - lat1)
  let dLon := deg2rad (lon2 - lon1)
  let a := Real.sin (dLat / 2) * Real.sin (dLat / 2) +
    Real.cos (deg2rad lat1) * Real.cos (deg2rad lat2) *
      Real.sin (dLon / 2) * Real.sin (dLon / 2)
  let c := 2 * atan2 (Real.sqrt a) (Real.sqrt (1 - a))
  R * c

/-- The reference Haversine great-circle distance, written from the
textbook formula the claim names (for comparison with the source's
`atan2` form): `a = sin²(Δφ/2) + cos φ₁ · cos φ₂ · sin²(Δλ/2)` and
`d = 2 R arcsin √a` with `R = 6371` km. -/
def haversineRef (lat1 lon1 lat2 lon2 : ℝ) : ℝ :=
  let R : ℝ := 6371
  let p1 := deg2rad lat1
  let p2 := deg2rad lat2
  let a := Real.sin ((p2 - p1) / 2) ^ 2 +
    Real.cos p1 * Real.cos p2 * Real.sin ((deg2rad lon2 - deg2rad lon1) / 2) ^ 2
  2 * R * Real.arcsin (Real.sqrt a)

end

/-! ### Helper lemmas -/

theorem length_filter_attendance (l : List RSVPRecord) :
    (l.filter (fun e => e.attendance)).length +
      (l.filter (fun e => !e.attendance)).length = l.length := by
  induction l with
  | nil => rfl
  | cons a t ih =>
      cases h : a.attendance <;> simp [List.filter_cons, h] <;> omega

theorem jsOr0_eq_getD (g : Option Int) : jsOr0 g = g.getD 0 := by
  cases g with
  | none => rfl
  | some v =>
      by_cases hv : v = 0 <;> simp [jsOr0, hv]

theorem foldl_guest_sum (l : List RSVPRecord) (init : Int) :
    l.foldl (fun sum e => sum + jsOr0 e.guestCount) init =
      init + (l.map (fun e => e.guestCount.getD 0)).sum := by
  induction l generalizing init with
  | nil => simp
  | cons a t ih =>
      rw [List.foldl_cons, ih, List.map_cons, List.sum_cons, jsOr0_eq_getD]
      ring

theorem computeStats_totalGuests (l : List RSVPRecord) (now : Int) :
    (computeStats l now).totalGuests =
      (l.map (fun e => e.guestCount.getD 0)).sum := by
  show l.foldl (fun sum e => sum + jsOr0 e.guestCount) 0 = _
  rw [foldl_guest_sum]
  simp

/-! ### C4 — countdown breakdown -/

/-- C4: for every non-negative millisecond difference `d`,
`calculateTimeUnits d` yields `hours < 24`, `minutes < 60`, `seconds < 60`,
and `((days * 24 + hours) * 60 + minutes) * 60 + seconds` is exactly
`⌊d / 1000⌋`. -/
theorem countdown_time_units_correct (d : Nat) :
    (calculateTimeUnits d).hours < 24 ∧
    (calculateTimeUnits d).minutes < 60 ∧
    (calculateTimeUnits d).seconds < 60 ∧
    (((calculateTimeUnits d).days * 24 + (calculateTimeUnits d).hours) * 60 +
        (calculateTimeUnits d).minutes) * 60 + (calculateTimeUnits d).seconds =
      d / 1000 := by
  simp only [calculateTimeUnits]
  norm_num
  omega

/-! ### C9 — guest count consistent with attendance -/

/-- C9: the record `collectFormData` builds keeps guest count consistent
with attendance: when its `attendance` field is false the `guestCount`
field is `0`, and when it is true the `guestCount` field is the `parseInt`
of the guest-count select's value.  Every accepted submission persists
exactly this record (see the save equation of `rsvp_record_shape`). -/
theorem guest_count_matches_attendance (form : FormState) (now : Int) :
    (collectFormData form now).guestCount =
      if (collectFormData form now).attendance then
        parseIntJS form.guestCountValue
      else some 0 := by
  cases h : form.attendanceSel == some yesValue <;>
    simp [collectFormData, h]

/-! ### C2 — statistics recomputed on every successful save -/

/-- C2: after every successful save, the aggregate stored under the second
key is exactly the recomputation from the full record list:
`totalResponses` is its length, `attendingCount` the number of records with
`attendance` true, `notAttendingCount` the number with `attendance` false,
`totalResponses = attendingCount + notAttendingCount`, and `totalGuests`
the sum of the records' `guestCount` values with a missing one read as 0. -/
theorem rsvp_statistics_recomputed (l : List RSVPRecord) (r : RSVPRecord)
    (s0 : Option RSVPStats) (d0 : DraftCell) (now : Int) (tw : Bool) :
    (saveRSVPData ⟨.records l, s0, d0⟩ r now ⟨false, tw⟩).2 = .ok () ∧
    (saveRSVPData ⟨.records l, s0, d0⟩ r now ⟨false, tw⟩).1.rsvpData =
      .records (l ++ [r]) ∧
    ∃ s, (saveRSVPData ⟨.records l, s0, d0⟩ r now ⟨false, tw⟩).1.rsvpStats =
        some s ∧
      s.totalResponses = (l ++ [r]).length ∧
      s.attendingCount = ((l ++ [r]).filter (fun e => e.attendance)).length ∧
      s.notAttendingCount =
        ((l ++ [r]).filter (fun e => !e.attendance)).length ∧
      s.totalResponses = s.attendingCount + s.notAttendingCount ∧
      s.totalGuests = ((l ++ [r]).map (fun e => e.guestCount.getD 0)).sum := by
  refine ⟨rfl, rfl, computeStats (l ++ [r]) now, rfl, rfl, rfl, rfl, ?_, ?_⟩
  · exact (length_filter_attendance (l ++ [r])).symm
  · exact computeStats_totalGuests (l ++ [r]) now

/-! ### C8 — draft recovery bounded to 24 hours -/

/-- C8: `loadSavedData` restores the saved draft's field values exactly
when the draft's `savedAt` timestamp is within the last 24 hours
(`now - savedAt ≤ dayInMs`); an older draft, or one that fails to parse,
is removed from storage and no field is restored. -/
theorem draft_recovery_bounded_24h (r0 : RSVPCell) (s0 : Option RSVPStats)
    (form : FormState) (now : Int) (d : DraftData) :
    loadSavedData ⟨r0, s0, .malformed⟩ form now = (⟨r0, s0, .absent⟩, form) ∧
    loadSavedData ⟨r0, s0, .draft d⟩ form now =
      (if now - d.savedAt > dayInMs then (⟨r0, s0, DraftCell.absent⟩, form)
       else (⟨r0, s0, DraftCell.draft d⟩, applyDraft d form)) := by
  refine ⟨rfl, ?_⟩
  by_cases h : now - d.savedAt > dayInMs <;> simp [loadSavedData, h]

/-! ### C10 — totality of getRSVPData -/

/-- C10 as stated is false: when the stored content is valid JSON that is
not an array — here the string `"5"`, which parses to the number 5 —
`getRSVPData` returns that parsed value unchecked, not an array. -/
theorem get_rsvp_data_nonarray_cex :
    getRSVPData (RSVPCell.nonArray (JsPrim.jnum 5)) =
      JsVal.prim (JsPrim.jnum 5) ∧
    (getRSVPData (RSVPCell.nonArray (JsPrim.jnum 5))).isArray = false := by
  exact ⟨rfl, rfl⟩

/-- C10 (amended): `getRSVPData` never throws; when the key is absent or
its content fails to parse as JSON it returns the empty array, and when
the content is a serialized record list (as everything `saveRSVPData`
writes is) it returns that list; valid non-array JSON content is the one
case returned as-is, unwrapped. -/
theorem get_rsvp_data_total :
    getRSVPData RSVPCell.absent = JsVal.arr [] ∧
    getRSVPData RSVPCell.malformed = JsVal.arr [] ∧
    (∀ l, getRSVPData (RSVPCell.records l) = JsVal.arr l) ∧
    (∀ p, getRSVPData (RSVPCell.nonArray p) = JsVal.prim p) :=
  ⟨rfl, rfl, fun _ => rfl, fun _ => rfl⟩

/-! ### C3 — append-only storage -/

/-- C3 as stated is false: an accepted submission that hits the storage
quota triggers `handleStorageQuotaExceeded`, which rewrites the stored
list.  Concretely, with 100 identical stored records, a valid submission
under the quota condition leaves only the most recent 99 stored records —
the oldest one is removed by an operation triggered by the submission. -/
theorem rsvp_quota_trim_drops_records_cex :
    handleSubmit
        ⟨.records (List.replicate 100
            ⟨1, codes "Ani", codes "a@b.cd", true, some 1, [], 1, 1⟩),
          none, .absent⟩
        ⟨codes "Budi", codes "budi@example.com", some (codes "yes"),
          codes "2", []⟩ 5000 ⟨true, false⟩ =
      .ok (⟨.records (List.replicate 99
            ⟨1, codes "Ani", codes "a@b.cd", true, some 1, [], 1, 1⟩),
          none, .absent⟩, .submitErrorShown submitErrMsg) ∧
    (List.replicate 99
        (⟨1, codes "Ani", codes "a@b.cd", true, some 1, [], 1, 1⟩ :
          RSVPRecord)).length <
      (List.replicate 100
        (⟨1, codes "Ani", codes "a@b.cd", true, some 1, [], 1, 1⟩ :
          RSVPRecord)).length := by
  constructor
  · decide
  · decide

/-- C3 (amended): when the storage write succeeds, the stored list after
saving is exactly the prior list with the new record appended (every prior
record unchanged in value and position, witnessed by the `take` equation);
when the write throws `QuotaExceededError`, the new record is not appended
and the quota handler removes the draft and, if the list held at least 100
records and the cleanup write goes through, rewrites it to the most recent
99 entries. -/
theorem rsvp_append_only_amended (l : List RSVPRecord) (r : RSVPRecord)
    (s0 : Option RSVPStats) (d0 : DraftCell) (now : Int) (tw : Bool) :
    saveRSVPData ⟨.records l, s0, d0⟩ r now ⟨false, tw⟩ =
      (⟨.records (l ++ [r]), some (computeStats (l ++ [r]) now), d0⟩,
        .ok ()) ∧
    (l ++ [r]).take l.length = l ∧
    saveRSVPData ⟨.records l, s0, d0⟩ r now ⟨true, tw⟩ =
      (⟨.records (if 100 ≤ l.length ∧ tw = false then
            l.drop (l.length - 99) else l), s0, .absent⟩,
        .error quotaFinalMsg) := by
  refine ⟨rfl, by simp, ?_⟩
  by_cases hc : 100 ≤ l.length ∧ tw = false <;>
    simp [saveRSVPData, getRSVPData, handleStorageQuotaExceeded, hc]

/-! ### C6 — failure propagation -/

/-- C6 as stated is false: the storage-quota failure is not kept inside the
operation where it occurs — `saveRSVPData` propagates it to its caller as a
thrown error (the message `handleStorageQuotaExceeded` throws). -/
theorem quota_error_propagates_cex :
    saveRSVPData ⟨.records [], none, .absent⟩
        ⟨1, codes "Ani", codes "a@b.cd", true, some 1, [], 1, 1⟩ 7
        ⟨true, false⟩ =
      (⟨.records [], none, .absent⟩, .error quotaFinalMsg) := by
  decide

theorem validateEmailField_records_ok (l : List RSVPRecord)
    (s0 : Option RSVPStats) (d0 : DraftCell) (raw : JStr) :
    ∃ c, validateEmailField ⟨.records l, s0, d0⟩ raw = .ok c := by
  by_cases h1 : (jsTrim raw).isEmpty
  · exact ⟨.err "Email wajib diisi", by simp [validateEmailField, h1]⟩
  · cases h2 : emailMatch (jsTrim raw) with
    | false =>
        exact ⟨.err "Format email tidak valid", by
          simp [validateEmailField, h1, h2]⟩
    | true =>
        cases hany : l.any
            (fun entry => jsToLower entry.email == jsToLower (jsTrim raw)) with
        | false =>
            exact ⟨.pass, by
              simp [validateEmailField, h1, h2, isEmailAlreadyRegistered,
                getRSVPData, hany]⟩
        | true =>
            exact ⟨.err
              "Email ini sudah terdaftar. Gunakan email lain atau hubungi penyelenggara.",
              by
                simp [validateEmailField, h1, h2, isEmailAlreadyRegistered,
                  getRSVPData, hany]⟩

theorem validateForm_records_ok (l : List RSVPRecord) (s0 : Option RSVPStats)
    (d0 : DraftCell) (form : FormState) :
    ∃ b, validateForm ⟨.records l, s0, d0⟩ form = .ok b := by
  obtain ⟨c, hc⟩ := validateEmailField_records_ok l s0 d0 form.emailValue
  exact ⟨(validateNameField form.nameValue).ok && c.ok &&
    (validateAttendanceField form.attendanceSel).ok,
    by simp [validateForm, hc]⟩

theorem handleSubmit_records_ok (l : List RSVPRecord) (s0 : Option RSVPStats)
    (d0 : DraftCell) (form : FormState) (now : Int) (env : StorageEnv) :
    ∃ p, handleSubmit ⟨.records l, s0, d0⟩ form now env = .ok p := by
  obtain ⟨b, hb⟩ := validateForm_records_ok l s0 d0 form
  cases b with
  | false =>
      exact ⟨(⟨.records l, s0, d0⟩, .validationFailed formFixMsg),
        by simp [handleSubmit, hb]⟩
  | true =>
      rcases hs : saveRSVPData ⟨.records l, s0, d0⟩ (collectFormData form now)
          now env with ⟨st1, res⟩
      cases res with
      | ok u =>
          cases u
          exact ⟨({ st1 with draft := DraftCell.absent }, .success),
            by simp [handleSubmit, hb, hs]⟩
      | error e =>
          exact ⟨(st1, .submitErrorShown submitErrMsg),
            by simp [handleSubmit, hb, hs]⟩

/-- C6 (amended): on list-shaped stored data, every submission-time failure
is surfaced by the top-level submit handler rather than escaping it —
`handleSubmit` always returns normally.  The storage-quota failure, though,
is first propagated as an exception from `handleStorageQuotaExceeded`
through `saveRSVPData` to `handleSubmit`, whose `catch` then shows the
inline form-status message. -/
theorem failures_surfaced_at_submit (l : List RSVPRecord)
    (s0 : Option RSVPStats) (d0 : DraftCell) (form : FormState) (now : Int)
    (qh tw : Bool) (r : RSVPRecord) :
    (∃ p, handleSubmit ⟨.records l, s0, d0⟩ form now ⟨qh, tw⟩ = .ok p) ∧
    (saveRSVPData ⟨.records l, s0, d0⟩ r now ⟨true, tw⟩).2 =
      .error quotaFinalMsg ∧
    (handleSubmit ⟨.records l, s0, d0⟩ form now ⟨true, tw⟩ =
        .ok (⟨.records l, s0, d0⟩, .validationFailed formFixMsg) ∨
      handleSubmit ⟨.records l, s0, d0⟩ form now ⟨true, tw⟩ =
        .ok ((handleStorageQuotaExceeded ⟨.records l, s0, d0⟩ ⟨true, tw⟩).1,
          .submitErrorShown submitErrMsg)) := by
  obtain ⟨b, hb⟩ := validateForm_records_ok l s0 d0 form
  refine ⟨handleSubmit_records_ok l s0 d0 form now ⟨qh, tw⟩, ?_, ?_⟩
  · simp [saveRSVPData, getRSVPData, handleStorageQuotaExceeded]
  · cases b with
    | false => exact Or.inl (by simp [handleSubmit, hb])
    | true =>
        exact Or.inr (by simp [handleSubmit, hb, saveRSVPData, getRSVPData])

/-! ### C5 — shape of the persisted record -/

/-- C5: every record an accepted submission persists is exactly the
`collectFormData` object — fields `id`, `name`, `email`, `attendance`,
`guestCount`, `message`, `timestamp`, `submittedAt` and nothing else —
with `attendance` the boolean "selected value is yes", `guestCount` an
integer (the `parseInt` of a well-formed select value, or 0), and saving
appends it to the ordered list held under the single data key. -/
theorem rsvp_record_shape (form : FormState) (now : Int)
    (l : List RSVPRecord) (s0 : Option RSVPStats) (d0 : DraftCell)
    (tw : Bool) (hguest : guestSelectValue form.guestCountValue) :
    collectFormData form now =
      ⟨now, jsTrim form.nameValue, jsTrim form.emailValue,
        form.attendanceSel == some yesValue,
        (if form.attendanceSel == some yesValue then
          parseIntJS form.guestCountValue else some 0),
        jsTrim form.messageValue, now, now⟩ ∧
    ((collectFormData form now).attendance = true ↔
      form.attendanceSel = some yesValue) ∧
    (∃ k : Int, (collectFormData form now).guestCount = some k) ∧
    saveRSVPData ⟨.records l, s0, d0⟩ (collectFormData form now) now
        ⟨false, tw⟩ =
      (⟨.records (l ++ [collectFormData form now]),
        some (computeStats (l ++ [collectFormData form now]) now), d0⟩,
        .ok ()) := by
  refine ⟨rfl, by simp [collectFormData], ?_, rfl⟩
  cases hsel : form.attendanceSel == some yesValue with
  | false => exact ⟨0, by simp [collectFormData, hsel]⟩
  | true =>
      obtain ⟨k, hk⟩ := Option.isSome_iff_exists.mp hguest
      exact ⟨k, by simp [collectFormData, hsel, hk]⟩

theorem rsvp_record_shape_witness :
    guestSelectValue (codes "2") ∧
    ((collectFormData
        ⟨codes "Budi", codes "b@c.de", some (codes "yes"), codes "2", []⟩
        3).attendance = true ↔
      (⟨codes "Budi", codes "b@c.de", some (codes "yes"), codes "2", []⟩ :
        FormState).attendanceSel = some yesValue) :=
  ⟨by decide,
    (rsvp_record_shape
      ⟨codes "Budi", codes "b@c.de", some (codes "yes"), codes "2", []⟩
      3 [] none .absent false (by decide)).2.1⟩

/-! ### C1 — case-insensitive email uniqueness

Lowercasing preserves the character classes the email regex distinguishes
(`@`, `.`, whitespace, everything else), so two strings with equal
lowercasings match the regex alike; and a string matching the regex holds
no whitespace, so `trim` leaves it unchanged. -/

theorem lowerCode_class {a b : Nat} (h : lowerCode a = lowerCode b) :
    (a = 64 ↔ b = 64) ∧ (a = 46 ↔ b = 46) ∧ isWsCode a = isWsCode b ∧
      emailChar a = emailChar b := by
  unfold lowerCode at h
  have h64 : a = 64 ↔ b = 64 := by split at h <;> split at h <;> omega
  have h46 : a = 46 ↔ b = 46 := by split at h <;> split at h <;> omega
  have hws : isWsCode a = isWsCode b := by
    rw [Bool.eq_iff_iff]
    simp only [isWsCode, decide_eq_true_eq]
    split at h <;> split at h <;> omega
  refine ⟨h64, h46, hws, ?_⟩
  unfold emailChar
  rw [hws, decide_eq_decide.mpr (not_congr h64)]

theorem jsToLower_eq_forall2 {s t : JStr} (h : jsToLower s = jsToLower t) :
    List.Forall₂ (fun a b => lowerCode a = lowerCode b) s t := by
  induction s generalizing t with
  | nil =>
      cases t with
      | nil => exact List.Forall₂.nil
      | cons b t => simp [jsToLower] at h
  | cons a s ih =>
      cases t with
      | nil => simp [jsToLower] at h
      | cons b t =>
          simp only [jsToLower, List.map_cons, List.cons.injEq] at h
          exact List.Forall₂.cons h.1 (ih (by simpa [jsToLower] using h.2))

theorem forall2_any64 {s t : JStr}
    (h : List.Forall₂ (fun a b => lowerCode a = lowerCode b) s t) :
    s.any (fun c => c == 64) = t.any (fun c => c == 64) := by
  induction h with
  | nil => rfl
  | cons hab htl ih =>
      simp only [List.any_cons, ih]
      congr 1
      rw [Bool.eq_iff_iff]
      simp only [beq_iff_eq]
      exact (lowerCode_class hab).1

theorem forall2_any46 {s t : JStr}
    (h : List.Forall₂ (fun a b => lowerCode a = lowerCode b) s t) :
    s.any (fun c => c == 46) = t.any (fun c => c == 46) := by
  induction h with
  | nil => rfl
  | cons hab htl ih =>
      simp only [List.any_cons, ih]
      congr 1
      rw [Bool.eq_iff_iff]
      simp only [beq_iff_eq]
      exact (lowerCode_class hab).2.1

theorem forall2_all_emailChar {s t : JStr}
    (h : List.Forall₂ (fun a b => lowerCode a = lowerCode b) s t) :
    s.all emailChar = t.all emailChar := by
  induction h with
  | nil => rfl
  | cons hab htl ih =>
      simp only [List.all_cons, ih, (lowerCode_class hab).2.2.2]

theorem forall2_isEmpty {s t : JStr}
    (h : List.Forall₂ (fun a b => lowerCode a = lowerCode b) s t) :
    s.isEmpty = t.isEmpty := by
  cases h <;> rfl

theorem forall2_takeWhile64 {s t : JStr}
    (h : List.Forall₂ (fun a b => lowerCode a = lowerCode b) s t) :
    List.Forall₂ (fun a b => lowerCode a = lowerCode b)
      (s.takeWhile (fun c => c != 64)) (t.takeWhile (fun c => c != 64)) := by
  induction h with
  | nil => exact List.Forall₂.nil
  | @cons a b s t hab htl ih =>
      have h64 := (lowerCode_class hab).1
      by_cases ha : a = 64
      · have hb : b = 64 := h64.mp ha
        simp [List.takeWhile_cons, ha, hb]
      · have hb : ¬b = 64 := fun hb => ha (h64.mpr hb)
        rw [List.takeWhile_cons, List.takeWhile_cons,
          if_pos (bne_iff_ne.mpr ha), if_pos (bne_iff_ne.mpr hb)]
        exact List.Forall₂.cons hab ih

theorem forall2_dropWhile64 {s t : JStr}
    (h : List.Forall₂ (fun a b => lowerCode a = lowerCode b) s t) :
    List.Forall₂ (fun a b => lowerCode a = lowerCode b)
      (s.dropWhile (fun c => c != 64)) (t.dropWhile (fun c => c != 64)) := by
  induction h with
  | nil => exact List.Forall₂.nil
  | @cons a b s t hab htl ih =>
      have h64 := (lowerCode_class hab).1
      by_cases ha : a = 64
      · have hb : b = 64 := h64.mp ha
        rw [List.dropWhile_cons, List.dropWhile_cons,
          if_neg (by simp [ha]), if_neg (by simp [hb])]
        exact List.Forall₂.cons hab htl
      · have hb : ¬b = 64 := fun hb => ha (h64.mpr hb)
        rw [List.dropWhile_cons, List.dropWhile_cons,
          if_pos (bne_iff_ne.mpr ha), if_pos (bne_iff_ne.mpr hb)]
        exact ih

theorem forall2_drop1 {s t : JStr}
    (h : List.Forall₂ (fun a b => lowerCode a = lowerCode b) s t) :
    List.Forall₂ (fun a b => lowerCode a = lowerCode b)
      (s.drop 1) (t.drop 1) := by
  cases h with
  | nil => exact List.Forall₂.nil
  | cons hab htl => simpa using htl

theorem forall2_dropLast {s t : JStr}
    (h : List.Forall₂ (fun a b => lowerCode a = lowerCode b) s t) :
    List.Forall₂ (fun a b => lowerCode a = lowerCode b)
      s.dropLast t.dropLast := by
  induction h with
  | nil => exact List.Forall₂.nil
  | @cons a b s t hab htl ih =>
      cases htl with
      | nil => exact List.Forall₂.nil
      | @cons c d m1 m2 hcd hm =>
          rw [List.dropLast_cons₂, List.dropLast_cons₂]
          exact List.Forall₂.cons hab ih

theorem emailMatch_lower_invariant {s t : JStr}
    (h : jsToLower s = jsToLower t) : emailMatch s = emailMatch t := by
  have hf := jsToLower_eq_forall2 h
  have htake := forall2_takeWhile64 hf
  have hrest := forall2_drop1 (forall2_dropWhile64 hf)
  simp only [emailMatch]
  rw [forall2_any64 hf, forall2_isEmpty htake, forall2_all_emailChar htake,
    forall2_isEmpty hrest, forall2_all_emailChar hrest,
    forall2_any46 (forall2_dropLast (forall2_drop1 hrest))]

theorem emailChar_not_ws {c : Nat} (h : emailChar c = true) :
    isWsCode c = false := by
  simp only [emailChar, Bool.and_eq_true, Bool.not_eq_true'] at h
  exact h.1

theorem dropWhile_head_eq64 {s : JStr}
    (h : s.any (fun c => c == 64) = true) :
    ∃ rest, s.dropWhile (fun c => c != 64) = 64 :: rest := by
  induction s with
  | nil => simp at h
  | cons a t ih =>
      by_cases ha : a = 64
      · exact ⟨t, by simp [List.dropWhile_cons, ha]⟩
      · have h' : t.any (fun c => c == 64) = true := by
          simpa [List.any_cons, ha] using h
        obtain ⟨rest, hr⟩ := ih h'
        exact ⟨rest, by simp [List.dropWhile_cons, ha, hr]⟩

theorem emailMatch_no_ws {s : JStr} (h : emailMatch s = true) :
    ∀ c ∈ s, isWsCode c = false := by
  simp only [emailMatch, Bool.and_eq_true, Bool.not_eq_true'] at h
  obtain ⟨⟨⟨⟨⟨hany, hAne⟩, hAall⟩, hrne⟩, hrall⟩, hdot⟩ := h
  intro c hc
  have hsplit := List.takeWhile_append_dropWhile
    (p := fun c => c != 64) (l := s)
  obtain ⟨rest, hr⟩ := dropWhile_head_eq64 hany
  rw [← hsplit] at hc
  rcases List.mem_append.mp hc with hcA | hcB
  · exact emailChar_not_ws (List.all_eq_true.mp hAall c hcA)
  · rw [hr] at hcB
    rcases List.mem_cons.mp hcB with rfl | hcrest
    · decide
    · refine emailChar_not_ws (List.all_eq_true.mp hrall c ?_)
      rw [hr]
      simpa using hcrest

theorem emailMatch_ne_nil {s : JStr} (h : emailMatch s = true) :
    s.isEmpty = false := by
  cases s with
  | nil => simp [emailMatch] at h
  | cons a t => rfl

theorem dropWhile_eq_self_of_none {p : Nat → Bool} {l : JStr}
    (h : ∀ c ∈ l, p c = false) : l.dropWhile p = l := by
  cases l with
  | nil => rfl
  | cons a t => simp [List.dropWhile_cons, h a (List.mem_cons_self a t)]

theorem jsTrim_eq_self {s : JStr} (h : ∀ c ∈ s, isWsCode c = false) :
    jsTrim s = s := by
  unfold jsTrim
  rw [dropWhile_eq_self_of_none h,
    dropWhile_eq_self_of_none (fun c hc => h c (List.mem_reverse.mp hc))]
  exact List.reverse_reverse s

/-- C1: against stored records whose emails are well-formed (as every
record the form itself persists is, its email having passed the pattern
check), a submission whose email equals some stored record's email after
lowercasing both sides gets the duplicate-email error on the email field
and `handleSubmit` stops at validation, appending nothing; conversely a
submission that passes validation matches no stored record's email
case-insensitively. -/
theorem rsvp_duplicate_email_uniqueness (l : List RSVPRecord)
    (s0 : Option RSVPStats) (d0 : DraftCell) (form : FormState) (now : Int)
    (env : StorageEnv) (hwf : ∀ r ∈ l, emailMatch r.email = true) :
    (∀ r ∈ l, jsToLower r.email = jsToLower form.emailValue →
      validateEmailField ⟨.records l, s0, d0⟩ form.emailValue =
        .ok (.err
          "Email ini sudah terdaftar. Gunakan email lain atau hubungi penyelenggara.") ∧
      handleSubmit ⟨.records l, s0, d0⟩ form now env =
        .ok (⟨.records l, s0, d0⟩, .validationFailed formFixMsg)) ∧
    (validateForm ⟨.records l, s0, d0⟩ form = .ok true →
      ∀ r ∈ l, jsToLower r.email ≠ jsToLower form.emailValue) := by
  have key : ∀ r ∈ l, jsToLower r.email = jsToLower form.emailValue →
      validateEmailField ⟨.records l, s0, d0⟩ form.emailValue =
        .ok (.err
          "Email ini sudah terdaftar. Gunakan email lain atau hubungi penyelenggara.") := by
    intro r hr heq
    have hm : emailMatch form.emailValue = true := by
      rw [← emailMatch_lower_invariant heq]
      exact hwf r hr
    have htr : jsTrim form.emailValue = form.emailValue :=
      jsTrim_eq_self (emailMatch_no_ws hm)
    have hne : form.emailValue.isEmpty = false := emailMatch_ne_nil hm
    have hany : l.any (fun entry =>
        jsToLower entry.email == jsToLower form.emailValue) = true :=
      List.any_eq_true.mpr ⟨r, hr, by rw [beq_iff_eq]; exact heq⟩
    simp [validateEmailField, htr, hne, hm, isEmailAlreadyRegistered,
      getRSVPData, hany]
  constructor
  · intro r hr heq
    have hval := key r hr heq
    have hform : validateForm ⟨.records l, s0, d0⟩ form = .ok false := by
      simp [validateForm, hval, FieldCheck.ok]
    exact ⟨hval, by simp [handleSubmit, hform]⟩
  · intro hvf r hr heq
    have hval := key r hr heq
    rw [validateForm, hval] at hvf
    simp [FieldCheck.ok] at hvf

theorem rsvp_duplicate_email_uniqueness_witness :
    emailMatch (codes "Ani@Example.com") = true ∧
    validateEmailField
        ⟨.records [⟨1, codes "Ani", codes "Ani@Example.com", true, some 2,
          [], 1, 1⟩], none, .absent⟩ (codes "ani@example.COM") =
      .ok (.err
        "Email ini sudah terdaftar. Gunakan email lain atau hubungi penyelenggara.") :=
  ⟨by decide,
    ((rsvp_duplicate_email_uniqueness
        [⟨1, codes "Ani", codes "Ani@Example.com", true, some 2, [], 1, 1⟩]
        none .absent
        ⟨codes "Budi", codes "ani@example.COM", some (codes "yes"),
          codes "2", []⟩ 3 ⟨false, false⟩ (by decide)).1
      ⟨1, codes "Ani", codes "Ani@Example.com", true, some 2, [], 1, 1⟩
      (by decide) (by decide)).1⟩

/-! ### C7 — Haversine distance -/

theorem deg2rad_sub (u v : ℝ) : deg2rad (u - v) = deg2rad u - deg2rad v := by
  unfold deg2rad
  ring

/-- The haversine intermediate `a` always lies in `[0, 1]`, for all real
inputs: it equals `(1 - cos c)/2` for the central angle `c`, and the
composed cosine is bounded by 1 in absolute value. -/
theorem hav_a_bounds (x y d : ℝ) :
    0 ≤ Real.sin ((y - x) / 2) ^ 2 +
        Real.cos x * Real.cos y * Real.sin (d / 2) ^ 2 ∧
    Real.sin ((y - x) / 2) ^ 2 +
        Real.cos x * Real.cos y * Real.sin (d / 2) ^ 2 ≤ 1 := by
  have hxy := Real.cos_two_mul' ((y - x) / 2)
  rw [show 2 * ((y - x) / 2) = y - x by ring] at hxy
  have hd := Real.cos_two_mul' (d / 2)
  rw [show 2 * (d / 2) = d by ring] at hd
  have hsub := Real.cos_sub y x
  have hu := Real.sin_sq_add_cos_sq ((y - x) / 2)
  have hv := Real.sin_sq_add_cos_sq (d / 2)
  have hx1 := Real.sin_sq_add_cos_sq x
  have hy1 := Real.sin_sq_add_cos_sq y
  constructor
  · rcases le_or_lt 0 (Real.cos x * Real.cos y) with hc | hc
    · nlinarith [sq_nonneg (Real.sin x - Real.sin y),
        sq_nonneg (Real.cos x - Real.cos y), sq_nonneg (Real.sin (d / 2)),
        sq_nonneg (Real.cos (d / 2)), sq_nonneg (Real.sin ((y - x) / 2))]
    · nlinarith [sq_nonneg (Real.sin x - Real.sin y),
        sq_nonneg (Real.cos x + Real.cos y), sq_nonneg (Real.sin (d / 2)),
        sq_nonneg (Real.cos (d / 2)), sq_nonneg (Real.sin ((y - x) / 2))]
  · rcases le_or_lt 0 (Real.cos x * Real.cos y) with hc | hc
    · nlinarith [sq_nonneg (Real.sin x + Real.sin y),
        sq_nonneg (Real.cos x - Real.cos y), sq_nonneg (Real.sin (d / 2)),
        sq_nonneg (Real.cos (d / 2)), sq_nonneg (Real.sin ((y - x) / 2))]
    · nlinarith [sq_nonneg (Real.sin x + Real.sin y),
        sq_nonneg (Real.cos x + Real.cos y), sq_nonneg (Real.sin (d / 2)),
        sq_nonneg (Real.cos (d / 2)), sq_nonneg (Real.sin ((y - x) / 2))]

/-- On `[0, 1]`, the source's `atan2 (√a) (√(1-a))` form agrees with the
reference's `arcsin (√a)` form of the central half-angle. -/
theorem atan2_sqrt_eq_arcsin {a : ℝ} (h0 : 0 ≤ a) (h1 : a ≤ 1) :
    atan2 (Real.sqrt a) (Real.sqrt (1 - a)) = Real.arcsin (Real.sqrt a) := by
  rcases lt_or_eq_of_le h1 with hlt | heq
  · have hx : 0 < Real.sqrt (1 - a) := Real.sqrt_pos.mpr (by linarith)
    have hmem : Real.sqrt a ∈ Set.Ioo (-(1 : ℝ)) 1 :=
      ⟨by nlinarith [Real.sqrt_nonneg a],
        (Real.sqrt_lt' one_pos).mpr (by simpa using hlt)⟩
    rw [atan2, if_pos hx, Real.arcsin_eq_arctan hmem, Real.sq_sqrt h0]
  · subst heq
    rw [sub_self, Real.sqrt_zero, Real.sqrt_one]
    norm_num [atan2, Real.arcsin_one]

theorem atan2_nonneg {y x : ℝ} (hy : 0 ≤ y) : 0 ≤ atan2 y x := by
  unfold atan2
  split_ifs with h1 h2 h3 h4 h5
  · have h := Real.arctan_strictMono.monotone (div_nonneg hy (le_of_lt h1))
    rwa [Real.arctan_zero] at h
  · have ha := Real.neg_pi_div_two_lt_arctan (y / x)
    have hπ := Real.pi_pos
    linarith
  · exact absurd h3.2 (not_lt.mpr hy)
  · have hπ := Real.pi_pos
    linarith
  · exact absurd h5.2 (not_lt.mpr hy)
  · exact le_refl 0

/-- C7: `calculateDistance` computes the Haversine great-circle distance
with Earth radius 6371 km: it equals the reference Haversine formula for
all real coordinates, is symmetric in its two points, is non-negative, and
vanishes when the two points coincide. -/
theorem haversine_distance_properties :
    (∀ lat1 lon1 lat2 lon2 : ℝ,
      calculateDistance lat1 lon1 lat2 lon2 =
        haversineRef lat1 lon1 lat2 lon2) ∧
    (∀ lat1 lon1 lat2 lon2 : ℝ,
      calculateDistance lat1 lon1 lat2 lon2 =
        calculateDistance lat2 lon2 lat1 lon1) ∧
    (∀ lat1 lon1 lat2 lon2 : ℝ,
      0 ≤ calculateDistance lat1 lon1 lat2 lon2) ∧
    (∀ lat lon : ℝ, calculateDistance lat lon lat lon = 0) := by
  refine ⟨?_, ?_, ?_, ?_⟩
  · intro lat1 lon1 lat2 lon2
    simp only [calculateDistance, haversineRef, deg2rad_sub]
    have hb := hav_a_bounds (deg2rad lat1) (deg2rad lat2)
      (deg2rad lon2 - deg2rad lon1)
    have hA : Real.sin ((deg2rad lat2 - deg2rad lat1) / 2) *
          Real.sin ((deg2rad lat2 - deg2rad lat1) / 2) +
        Real.cos (deg2rad lat1) * Real.cos (deg2rad lat2) *
          Real.sin ((deg2rad lon2 - deg2rad lon1) / 2) *
          Real.sin ((deg2rad lon2 - deg2rad lon1) / 2) =
        Real.sin ((deg2rad lat2 - deg2rad lat1) / 2) ^ 2 +
        Real.cos (deg2rad lat1) * Real.cos (deg2rad lat2) *
          Real.sin ((deg2rad lon2 - deg2rad lon1) / 2) ^ 2 := by
      ring
    rw [hA, atan2_sqrt_eq_arcsin hb.1 hb.2]
    ring
  · intro lat1 lon1 lat2 lon2
    simp only [calculateDistance, deg2rad_sub]
    have hA : Real.sin ((deg2rad lat1 - deg2rad lat2) / 2) *
          Real.sin ((deg2rad lat1 - deg2rad lat2) / 2) +
        Real.cos (deg2rad lat2) * Real.cos (deg2rad lat1) *
          Real.sin ((deg2rad lon1 - deg2rad lon2) / 2) *
          Real.sin ((deg2rad lon1 - deg2rad lon2) / 2) =
        Real.sin ((deg2rad lat2 - deg2rad lat1) / 2) *
          Real.sin ((deg2rad lat2 - deg2rad lat1) / 2) +
        Real.cos (deg2rad lat1) * Real.cos (deg2rad lat2) *
          Real.sin ((deg2rad lon2 - deg2rad lon1) / 2) *
          Real.sin ((deg2rad lon2 - deg2rad lon1) / 2) := by
      rw [show (deg2rad lat1 - deg2rad lat2) / 2 =
          -((deg2rad lat2 - deg2rad lat1) / 2) by ring,
        show (deg2rad lon1 - deg2rad lon2) / 2 =
          -((deg2rad lon2 - deg2rad lon1) / 2) by ring,
        Real.sin_neg, Real.sin_neg]
      ring
    rw [hA]
  · intro lat1 lon1 lat2 lon2
    simp only [calculateDistance]
    have h2 : (0 : ℝ) ≤ 2 * atan2
        (Real.sqrt (Real.sin (deg2rad (lat2 - lat1) / 2) *
            Real.sin (deg2rad (lat2 - lat1) / 2) +
          Real.cos (deg2rad lat1) * Real.cos (deg2rad lat2) *
            Real.sin (deg2rad (lon2 - lon1) / 2) *
            Real.sin (deg2rad (lon2 - lon1) / 2)))
        (Real.sqrt (1 - (Real.sin (deg2rad (lat2 - lat1) / 2) *
            Real.sin (deg2rad (lat2 - lat1) / 2) +
          Real.cos (deg2rad lat1) * Real.cos (deg2rad lat2) *
            Real.sin (deg2rad (lon2 - lon1) / 2) *
            Real.sin (deg2rad (lon2 - lon1) / 2)))) :=
      mul_nonneg (by norm_num) (atan2_nonneg (Real.sqrt_nonneg _))
    exact mul_nonneg (by norm_num) h2
  · intro lat lon
    have hz : deg2rad (lat - lat) = 0 := by
      simp [deg2rad]
    have hz2 : deg2rad (lon - lon) = 0 := by
      simp [deg2rad]
    simp only [calculateDistance, hz, hz2, zero_div, Real.sin_zero,
      mul_zero, zero_mul, add_zero, zero_add, sub_zero, Real.sqrt_zero,
      Real.sqrt_one]
    norm_num [atan2, Real.arctan_zero]

end Wedding
